import Mathlib

/-!
Verification development for the libDELILA digitizer raw-buffer decoding
pipeline (CAEN-family PSD/PHA digitizers, first- and second-generation
firmware).

Modelling conventions of this shallow embedding:
* Device words (64-bit for the gen-2 PSD2 format, 32-bit for the gen-1
  PSD1/PHA1 formats) are modelled as `Nat` together with explicit
  mask-and-shift extraction mirroring the C++ source; truncating stores
  into narrower machine integers are modelled with explicit `% 2 ^ w`.
* A gen-2 raw buffer is modelled as the list of its 64-bit words after the
  in-place byte swap performed at the start of `AddData` (the device emits
  big-endian words); the byte size of the buffer is `8 *` the list length.
  The classifier and the decoders only ever see this post-swap form.
* `double` fields (`timeStampNs`) are modelled as `ℚ`; every concrete value
  appearing in the claims is exactly representable in binary64, and the
  rounding of binary64 arithmetic is not itself the object of any claim.
* Out-of-bounds word reads (which are undefined behaviour in the C++
  source) are modelled as reading the value 0; theorems about reads past
  the end of a buffer only ever state *which* indices are touched, never
  what value such a read yields.
* `std::vector` trace buffers are modelled as `List`; writes happen via
  `List.set` at indices that the source guards to be in range.
-/

namespace DELILA

/-- Buffer classification result, mirroring `DataType.hpp`:
`enum class DataType { Start, Stop, Event, Unknown }`. -/
inductive DataType where
  | start
  | stop
  | event
  | unknown
deriving DecidableEq, Repr

/-- Decoded event record, mirroring the public data members of `EventData`
(`EventData.hpp` / `EventData.cpp`).  The `flags` member is used by every
decoder in `src` and is part of the spec data model (`flags: u64`), although
the header draft shipped under `src/include` omits its declaration. -/
structure EventData where
  timeStampNs : ℚ
  waveformSize : Nat
  analogProbe1 : List Int
  analogProbe2 : List Int
  digitalProbe1 : List Nat
  digitalProbe2 : List Nat
  digitalProbe3 : List Nat
  digitalProbe4 : List Nat
  energy : Nat
  energyShort : Nat
  module : Nat
  channel : Nat
  timeResolution : Nat
  analogProbe1Type : Nat
  analogProbe2Type : Nat
  digitalProbe1Type : Nat
  digitalProbe2Type : Nat
  digitalProbe3Type : Nat
  digitalProbe4Type : Nat
  downSampleFactor : Nat
  flags : Nat
deriving DecidableEq, Repr

/-- The `EventData(size_t waveformSize)` constructor: every scalar starts at
zero and, when `waveformSize > 0`, `ResizeWaveform` sizes all six trace
vectors to `waveformSize` (value-initialised, hence zero-filled).  Resizing
an empty vector to 0 is a no-op, so the `if` in the constructor is
immaterial and all six lists are `replicate waveformSize 0`. -/
def EventData.init (waveformSize : Nat) : EventData where
  timeStampNs := 0
  waveformSize := waveformSize
  analogProbe1 := List.replicate waveformSize 0
  analogProbe2 := List.replicate waveformSize 0
  digitalProbe1 := List.replicate waveformSize 0
  digitalProbe2 := List.replicate waveformSize 0
  digitalProbe3 := List.replicate waveformSize 0
  digitalProbe4 := List.replicate waveformSize 0
  energy := 0
  energyShort := 0
  module := 0
  channel := 0
  timeResolution := 0
  analogProbe1Type := 0
  analogProbe2Type := 0
  digitalProbe1Type := 0
  digitalProbe2Type := 0
  digitalProbe3Type := 0
  digitalProbe4Type := 0
  downSampleFactor := 0
  flags := 0

namespace PSD2

/-- Read the 64-bit word at index `i` of a (post-swap) gen-2 buffer.
Reading past the end of the buffer is undefined behaviour in the source
and is modelled as 0 here. -/
def wordAt (ws : List Nat) (i : Nat) : Nat := ws.getD i 0

/-- `PSD2Decoder::CheckStop` (also `RawToPSD2::CheckStop`): a 3-word
candidate is a Stop when word0 has bits[60:63] = 0x3 and bits[56:59] = 0x2,
word1 has bits[56:59] = 0x0 and word2 has bits[56:59] = 0x1.  Note that the
source masks each of the word1/word2 checks with `0xF` after shifting by
56, i.e. it inspects only the low nibble of the top byte. -/
def checkStop (ws : List Nat) : Bool :=
  ((wordAt ws 0 >>> 60) &&& 0xF == 0x3) && ((wordAt ws 0 >>> 56) &&& 0xF == 0x2)
    && ((wordAt ws 1 >>> 56) &&& 0xF == 0x0)
    && ((wordAt ws 2 >>> 56) &&& 0xF == 0x1)

/-- `PSD2Decoder::CheckStart` (also `RawToPSD2::CheckStart`): a 4-word
candidate is a Start when word0 has bits[60:63] = 0x3 and bits[56:59] = 0x0
and words 1, 2, 3 have bits[56:59] equal to 0x2, 0x1, 0x1 respectively
(again each masked with `0xF` after the shift by 56). -/
def checkStart (ws : List Nat) : Bool :=
  ((wordAt ws 0 >>> 60) &&& 0xF == 0x3) && ((wordAt ws 0 >>> 56) &&& 0xF == 0x0)
    && ((wordAt ws 1 >>> 56) &&& 0xF == 0x2)
    && ((wordAt ws 2 >>> 56) &&& 0xF == 0x1)
    && ((wordAt ws 3 >>> 56) &&& 0xF == 0x1)

/-- `PSD2Decoder::CheckDataType` (also `RawToPSD2::CheckDataType`): buffers
shorter than 3 words are Unknown; a 3-word buffer matching the Stop pattern
is Stop; a 4-word buffer matching the Start pattern is Start; everything
else is Event. -/
def checkDataType (ws : List Nat) : DataType :=
  if ws.length < 3 then .unknown
  else if ws.length = 3 then (if checkStop ws then .stop else .event)
  else if ws.length = 4 then (if checkStart ws then .start else .event)
  else .event

/-- Observable outcome of one `AddData` call.  `enqueued` records whether
the buffer was pushed onto `fRawDataQueue`, `running` is the value of
`fIsRunning` after the call, and `exited` records whether the call ran
`exit(1)` (in which case control never returns to the caller). -/
structure AddDataResult where
  dataType : DataType
  enqueued : Bool
  running : Bool
  exited : Bool
deriving DecidableEq, Repr

/-- `PSD2Decoder::AddData` (also `RawToPSD2::AddData`), modelled after the
byte-swap step on a buffer whose byte size is a multiple of the word size:
the classifier runs, Event buffers are enqueued iff `fIsRunning`, Start
sets `fIsRunning`, Stop clears it, and the Unknown branch prints a message
and then calls `exit(1)`, terminating the process. -/
def addData (running : Bool) (ws : List Nat) : AddDataResult :=
  match checkDataType ws with
  | .event => ⟨.event, running, running, false⟩
  | .start => ⟨.start, false, true, false⟩
  | .stop => ⟨.stop, false, false, false⟩
  | .unknown => ⟨.unknown, false, running, true⟩

/-- Gen-2 Start pattern as the specification words it (claim C3): full
top-byte checks `word1 bits[56:63] = 2`, `word2 bits[56:63] = 1`,
`word3 bits[56:63] = 1` alongside the two nibble checks on word0.
This definition follows the spec text and is compared against the
source-derived `checkStart`. -/
def specStartPattern (ws : List Nat) : Bool :=
  ((wordAt ws 0 >>> 60) &&& 0xF == 0x3) && ((wordAt ws 0 >>> 56) &&& 0xF == 0x0)
    && ((wordAt ws 1 >>> 56) &&& 0xFF == 0x2)
    && ((wordAt ws 2 >>> 56) &&& 0xFF == 0x1)
    && ((wordAt ws 3 >>> 56) &&& 0xFF == 0x1)

/-- Gen-2 Stop pattern as the specification words it (claim C3): full
top-byte checks on words 1 and 2. -/
def specStopPattern (ws : List Nat) : Bool :=
  ((wordAt ws 0 >>> 60) &&& 0xF == 0x3) && ((wordAt ws 0 >>> 56) &&& 0xF == 0x2)
    && ((wordAt ws 1 >>> 56) &&& 0xFF == 0x0)
    && ((wordAt ws 2 >>> 56) &&& 0xFF == 0x1)

/-- `PSD2Decoder::DecodeFirstWord`: the channel is bits[56:62] of the first
event word (the raw timestamp extraction in that function only feeds the
debug dump; `DecodeEventPair` re-extracts it). -/
def decodeFirstWord (word : Nat) (e : EventData) : EventData :=
  { e with channel := (word >>> 56) &&& 0x7F }

/-- The flag-combining expression of `PSD2Decoder::DecodeSecondWord`:
`(flagsHighPriority << 11) | flagsLowPriority`. -/
def combineFlags (flagsHighPriority flagsLowPriority : Nat) : Nat :=
  (flagsHighPriority <<< 11) ||| flagsLowPriority

/-- `PSD2Decoder::DecodeSecondWord`: flag groups at bits[50:60] (11-bit low
priority) and bits[42:49] (8-bit high priority) combined as
`(high <<< 11) ||| low`; short energy at bits[26:41] (masked with
`kEnergyShortMask = 0xFFFF`), long energy at bits[0:15], fine time at
bits[16:25]; timestamp `raw * step + fine / 1024 * step`. -/
def decodeSecondWord (word : Nat) (e : EventData) (rawTimeStamp timeStep : Nat) :
    EventData :=
  let flagsLowPriority := (word >>> 50) &&& 0x7FF
  let flagsHighPriority := (word >>> 42) &&& 0xFF
  let fineTime := (word >>> 16) &&& 0x3FF
  { e with
    flags := combineFlags flagsHighPriority flagsLowPriority
    energyShort := (word >>> 26) &&& 0xFFFF
    energy := word &&& 0xFFFF
    timeStampNs := (rawTimeStamp : ℚ) * (timeStep : ℚ)
      + (fineTime : ℚ) / 1024 * (timeStep : ℚ) }

/-- `PSD2Decoder::GetMultiplicationFactor`: 2-bit code 0, 1, 2, 3 maps to
multiplication factor 1, 4, 8, 16. -/
def getMultiplicationFactor (encodedValue : Nat) : Nat :=
  if encodedValue = 0 then 1
  else if encodedValue = 1 then 4
  else if encodedValue = 2 then 8
  else if encodedValue = 3 then 16
  else 1

/-- Analog probe configuration extracted from the waveform header word
(`PSD2Decoder::WaveformConfig` + `ExtractWaveformConfig`). -/
structure WaveformConfig where
  ap1IsSigned : Bool
  ap1MulFactor : Nat
  ap2IsSigned : Bool
  ap2MulFactor : Nat
deriving DecidableEq, Repr

/-- `PSD2Decoder::ExtractWaveformConfig`: signed bits at 3 and 9,
multiplication codes at bits[4:5] and bits[10:11]. -/
def extractWaveformConfig (header : Nat) : WaveformConfig where
  ap1IsSigned := (header >>> 3) &&& 0x1 == 1
  ap1MulFactor := getMultiplicationFactor ((header >>> 4) &&& 0x3)
  ap2IsSigned := (header >>> 9) &&& 0x1 == 1
  ap2MulFactor := getMultiplicationFactor ((header >>> 10) &&& 0x3)

/-- `PSD2Decoder::DecodeWaveformHeader`: down-sample factor
`1 <<< bits[44:45]` and the six probe-type annotation fields. -/
def decodeWaveformHeader (header : Nat) (e : EventData) : EventData :=
  { e with
    downSampleFactor := 1 <<< ((header >>> 44) &&& 0x3)
    digitalProbe4Type := (header >>> 24) &&& 0xF
    digitalProbe3Type := (header >>> 20) &&& 0xF
    digitalProbe2Type := (header >>> 16) &&& 0xF
    digitalProbe1Type := (header >>> 12) &&& 0xF
    analogProbe2Type := (header >>> 6) &&& 0x7
    analogProbe1Type := header &&& 0x7 }

/-- Sign extension of a 14-bit field as performed by `DecodeWaveformPoint`:
the source ors the `uint32` with `0xFFFC000..` bits and then casts it to
`int32_t`, which yields `raw - 0x4000` when bit 13 is set. -/
def signExtend14 (raw : Nat) : Int :=
  if raw &&& 0x2000 ≠ 0 then (raw : Int) - 0x4000 else (raw : Int)

/-- `PSD2Decoder::DecodeWaveformPoint`: one 32-bit half-word yields one
sample of each of the six traces.  The source writes through unchecked
`operator[]`; `List.set` leaves the list unchanged when the index is out of
range, so theorems about out-of-range writes only ever assert which indices
are touched. -/
def decodeWaveformPoint (point dataIndex : Nat) (config : WaveformConfig)
    (e : EventData) : EventData :=
  let analog1Raw := point &&& 0x3FFF
  let analog2Raw := (point >>> 16) &&& 0x3FFF
  let v1 : Int :=
    (if config.ap1IsSigned then signExtend14 analog1Raw else (analog1Raw : Int))
      * (config.ap1MulFactor : Int)
  let v2 : Int :=
    (if config.ap2IsSigned then signExtend14 analog2Raw else (analog2Raw : Int))
      * (config.ap2MulFactor : Int)
  { e with
    analogProbe1 := e.analogProbe1.set dataIndex v1
    analogProbe2 := e.analogProbe2.set dataIndex v2
    digitalProbe1 := e.digitalProbe1.set dataIndex ((point >>> 14) &&& 0x1)
    digitalProbe2 := e.digitalProbe2.set dataIndex ((point >>> 15) &&& 0x1)
    digitalProbe3 := e.digitalProbe3.set dataIndex ((point >>> 30) &&& 0x1)
    digitalProbe4 := e.digitalProbe4.set dataIndex ((point >>> 31) &&& 0x1) }

/-- `PSD2Decoder::DecodeWaveformData`, entered with `wordIndex` pointing at
the waveform header word: reads the header at `wordIndex`, the length word
(low 12 bits = number of 64-bit waveform words) right after it, then that
many data words, two 32-bit samples per word.  The returned Bool records
whether the `"Waveform size mismatch"` warning fired, i.e. whether the
already-allocated `waveformSize` differs from `2 * nWords`. -/
def decodeWaveformData (ws : List Nat) (wordIndex : Nat) (e : EventData) :
    EventData × Nat × Bool :=
  let header := wordAt ws wordIndex
  let config := extractWaveformConfig header
  let e := decodeWaveformHeader header e
  let nWordsWaveform := wordAt ws (wordIndex + 1) &&& 0xFFF
  let mismatch := e.waveformSize != nWordsWaveform * 2
  let e := (List.range nWordsWaveform).foldl
    (fun acc j =>
      let w := wordAt ws (wordIndex + 2 + j)
      let acc := decodeWaveformPoint (w &&& 0xFFFFFFFF) (j * 2) config acc
      decodeWaveformPoint ((w >>> 32) &&& 0xFFFFFFFF) (j * 2 + 1) config acc)
    e
  (e, wordIndex + 2 + nWordsWaveform, mismatch)

/-- `PSD2Decoder::DecodeEventPair`, entered with `wordIndex` pointing at the
first event word.  After consuming the two event words the source peeks the
waveform size at `wordIndex + 2` relative to the advanced index — that is
the word at offset `wi + 4` from the original index, i.e. the first
waveform *data* word; the actual length word sits at `wi + 3` and is what
`decodeWaveformData` later reads.  The peeked word at `wi + 3` is stored
into a dead `waveformHeader` local and discarded.  Returns the event, the
new word index, and the waveform size-mismatch warning flag. -/
def decodeEventPair (ws : List Nat) (wi timeStep moduleNumber : Nat) :
    EventData × Nat × Bool :=
  let firstWord := wordAt ws wi
  let secondWord := wordAt ws (wi + 1)
  let hasWaveform := (secondWord >>> 62) &&& 0x1 == 1
  let waveformSize := if hasWaveform then (wordAt ws (wi + 4) &&& 0xFFF) * 2 else 0
  let e := EventData.init waveformSize
  let rawTimeStamp := firstWord &&& 0xFFFFFFFFFFFF
  let e := decodeFirstWord firstWord e
  let e := decodeSecondWord secondWord e rawTimeStamp timeStep
  let r := if hasWaveform then decodeWaveformData ws (wi + 2) e
           else (e, wi + 2, false)
  ({ r.1 with timeResolution := timeStep % 256, module := moduleNumber },
    r.2.1, r.2.2)

/-- The event-scan loop of `PSD2Decoder::ProcessEventData`, written with a
structural fuel so that it evaluates inside the kernel.  The C++ loop runs
while `wi < totalSize` and `wi` strictly increases on every iteration, so
the loop body executes at most `totalSize - wi` times;
`processLoopAux_fuel_invariant` below shows the result is the same for
every fuel of at least that many steps, hence the fuelled function is the
loop itself and not an approximation of it. -/
def processLoopAux (ws : List Nat) (totalSize timeStep moduleNumber : Nat) :
    Nat → Nat → List EventData × Nat
  | 0, wi => ([], wi)
  | fuel + 1, wi =>
    if wi < totalSize then
      let r := decodeEventPair ws wi timeStep moduleNumber
      let rest := processLoopAux ws totalSize timeStep moduleNumber fuel r.2.1
      (r.1 :: rest.1, rest.2)
    else ([], wi)

/-- The event-scan loop of `PSD2Decoder::ProcessEventData`: starting from
word index `wi` (the call site uses 1), decode event pairs while the index
is below the header-declared `totalSize` — the loop bound is the declared
size, not clamped to the actual buffer length.  Returns the decoded events
in scan order together with the final word index. -/
def processLoop (ws : List Nat) (totalSize timeStep moduleNumber wi : Nat) :
    List EventData × Nat :=
  processLoopAux ws totalSize timeStep moduleNumber (totalSize - wi) wi

/-- Insertion of one event into a timestamp-sorted list; `sortEvents` below
models the `std::sort` by ascending `timeStampNs` at the end of
`ProcessEventData` (the source comparator is `a->timeStampNs <
b->timeStampNs`; ties are left in an unspecified order by `std::sort`, and
no claim depends on tie order). -/
def insertEvent (a : EventData) : List EventData → List EventData
  | [] => [a]
  | b :: l =>
    if a.timeStampNs ≤ b.timeStampNs then a :: b :: l else b :: insertEvent a l

/-- Sort a decoded batch by ascending `timeStampNs`. -/
def sortEvents (l : List EventData) : List EventData := l.foldr insertEvent []

/-- Outcome of `PSD2Decoder::ValidateDataHeader`: `ok = false` means the
buffer is discarded (wrong header type); `sizeMismatchWarned` records the
`"Size mismatch"` warning when the declared `totalSize * 8` differs from
the actual byte size.  The warning does not make validation fail. -/
structure ValidateResult where
  ok : Bool
  sizeMismatchWarned : Bool
deriving DecidableEq, Repr

/-- `PSD2Decoder::ValidateDataHeader` (also `RawToPSD2`): header type must
be `0x2` at bits[60:63]; the fail bit and aggregate-counter checks only
log; the size consistency check only logs. -/
def validateDataHeader (headerWord dataSizeBytes : Nat) : ValidateResult :=
  if (headerWord >>> 60) &&& 0xF ≠ 0x2 then ⟨false, false⟩
  else ⟨true, (headerWord &&& 0xFFFFFFFF) * 8 != dataSizeBytes⟩

/-- `PSD2Decoder::DecodeData` followed by `ProcessEventData` on one raw
buffer: validate the header word, then scan events up to the declared
total size and sort the batch by timestamp.  Returns the sorted batch appended to
the output queue (empty when validation rejects the buffer). -/
def decodeData (ws : List Nat) (timeStep moduleNumber : Nat) : List EventData :=
  let headerWord := wordAt ws 0
  if (validateDataHeader headerWord (8 * ws.length)).ok then
    sortEvents (processLoop ws (headerWord &&& 0xFFFFFFFF) timeStep moduleNumber 1).1
  else []

/-- Single-worker engine run: one decode thread pops the raw-buffer queue in
FIFO order, decodes each buffer with `DecodeData`, and appends each sorted
batch to the shared output vector; `GetEventData` then drains the
concatenation of the per-buffer batches in processing order. -/
def singleWorkerRun (bufs : List (List Nat)) (timeStep moduleNumber : Nat) :
    List EventData :=
  bufs.foldl (fun acc b => acc ++ decodeData b timeStep moduleNumber) []

end PSD2

/-- Modelled from the spec: the `EventData` flag-bit constants
(`FLAG_PILEUP`, `FLAG_TRIGGER_LOST`, `FLAG_OVER_RANGE`, `FLAG_1024_TRIGGER`,
`FLAG_N_LOST_TRIGGER`) are referenced by `Dig1Decoder.cpp` and
`PHA1Decoder.cpp` but declared in an `EventData.hpp` draft that is not
present under `src/`; the spec (§3) fixes only that they are distinct
reserved bits of the `flags` field.  Concrete distinct bits are chosen
here; no claim depends on the positions. -/
def kFlagPileup : Nat := 1

/-- Modelled from the spec: reserved trigger-lost flag bit (see
`kFlagPileup`). -/
def kFlagTriggerLost : Nat := 2

/-- Modelled from the spec: reserved over-range flag bit (see
`kFlagPileup`). -/
def kFlagOverRange : Nat := 4

/-- Modelled from the spec: reserved 1024-trigger-marker flag bit (see
`kFlagPileup`). -/
def kFlag1024Trigger : Nat := 8

/-- Modelled from the spec: reserved N-lost-triggers flag bit (see
`kFlagPileup`). -/
def kFlagNLostTrigger : Nat := 16

namespace Gen1

/-- Read the 32-bit word at index `i` of a gen-1 buffer (gen-1 wire data is
little-endian and is not byte-swapped).  Out-of-bounds reads are modelled
as 0; the claims settled on gen-1 code never depend on such a read. -/
def wordAt32 (ws : List Nat) (i : Nat) : Nat := ws.getD i 0

/-- Loop body shared verbatim (up to constant names) by
`Dig1Decoder::DecodeWaveform` and `PHA1Decoder::DecodeWaveform`: one 32-bit
word holds two 16-bit samples; each sample has a 14-bit analog value at
bits[0:13] and two probe bits at 14 and 15 (digital probes 1/2 for PSD1;
digital probe and trigger flag for PHA1, stored in the same two trace
slots).  In dual-trace mode the even slot `i1 > 0` copies
`analogProbe1[i1 - 1]` into `analogProbe2[i1]`, and the odd slot `i2`
first copies its own fresh `analogProbe1[i2]` into `analogProbe2[i2]` and
then overwrites `analogProbe1[i2]` with `analogProbe1[i2 - 1]`.  All reads
see the vector state left by the earlier writes of the same pass, exactly
as in the source. -/
def waveStep (dualTrace : Bool) (word j : Nat) (e : EventData) : EventData :=
  let sample1 := word &&& 0xFFFF
  let sample2 := (word >>> 16) &&& 0xFFFF
  let i1 := j * 2
  let i2 := j * 2 + 1
  let e :=
    if i1 < e.waveformSize then
      let e := { e with
        analogProbe1 := e.analogProbe1.set i1 ((sample1 &&& 0x3FFF : Nat) : Int)
        digitalProbe1 := e.digitalProbe1.set i1 ((sample1 >>> 14) &&& 0x1)
        digitalProbe2 := e.digitalProbe2.set i1 ((sample1 >>> 15) &&& 0x1) }
      if dualTrace ∧ 0 < i1 then
        { e with
          analogProbe2 := e.analogProbe2.set i1 (e.analogProbe1.getD (i1 - 1) 0) }
      else e
    else e
  if i2 < e.waveformSize then
    let e := { e with
      analogProbe1 := e.analogProbe1.set i2 ((sample2 &&& 0x3FFF : Nat) : Int)
      digitalProbe1 := e.digitalProbe1.set i2 ((sample2 >>> 14) &&& 0x1)
      digitalProbe2 := e.digitalProbe2.set i2 ((sample2 >>> 15) &&& 0x1) }
    if dualTrace then
      let e := { e with
        analogProbe2 := e.analogProbe2.set i2 (e.analogProbe1.getD i2 0) }
      { e with
        analogProbe1 := e.analogProbe1.set i2 (e.analogProbe1.getD (i2 - 1) 0) }
    else e
  else e

/-- The gen-1 waveform word loop: iteration `j` (starting at `j0`) reads
the 32-bit word at `wi + j` and processes its two samples; `count` words
remain. -/
def waveLoop (dualTrace : Bool) (ws : List Nat) (wi j count : Nat)
    (e : EventData) : EventData :=
  match count with
  | 0 => e
  | n + 1 =>
    waveLoop dualTrace ws wi (j + 1) n (waveStep dualTrace (wordAt32 ws (wi + j)) j e)

end Gen1

namespace Dig1

/-- `Dig1Decoder::DualChannelInfo` (PSD1 dual-channel-pair header fields). -/
structure DualChannelInfo where
  aggregateSize : Nat
  numSamplesWave : Nat
  digitalProbe1 : Nat
  digitalProbe2 : Nat
  analogProbe : Nat
  extraOption : Nat
  samplesEnabled : Bool
  extrasEnabled : Bool
  timeEnabled : Bool
  chargeEnabled : Bool
  dualTraceEnabled : Bool
deriving DecidableEq, Repr

/-- `Dig1Decoder::DecodeWaveform`: reads `numSamplesWave * 2` consecutive
32-bit words (two 16-bit samples per word) and fills the traces via the
shared gen-1 loop body.  Returns the event and the advanced word index. -/
def decodeWaveform (ws : List Nat) (wi : Nat) (info : DualChannelInfo)
    (e : EventData) : EventData × Nat :=
  let numWords := info.numSamplesWave * 2
  (Gen1.waveLoop info.dualTraceEnabled ws wi 0 numWords e, wi + numWords)

/-- `Dig1Decoder::DecodeExtrasWord`: decodes every extras word as if the
extras option were 0b010 — fine time at bits[0:9], a 6-bit flag group at
bits[10:15], extended time at bits[16:31] — regardless of the channel
header's `extraOption`.  Returns the extended time and stores the decoded
flag bits. -/
def decodeExtrasWord (extrasWord : Nat) (e : EventData) : Nat × EventData :=
  let flags := (extrasWord >>> 10) &&& 0x3F
  let extendedTime := (extrasWord >>> 16) &&& 0xFFFF
  let f0 : Nat := 0
  let f1 := if flags &&& 0x20 ≠ 0 then f0 ||| kFlagTriggerLost else f0
  let f2 := if flags &&& 0x10 ≠ 0 then f1 ||| kFlagOverRange else f1
  let f3 := if flags &&& 0x08 ≠ 0 then f2 ||| kFlag1024Trigger else f2
  let f4 := if flags &&& 0x04 ≠ 0 then f3 ||| kFlagNLostTrigger else f3
  (extendedTime, { e with flags := f4 })

/-- `Dig1Decoder::DecodeChargeWord`: PSD1 charge word with short gate at
bits[0:14], pile-up at bit 15, long gate at bits[16:31]. -/
def decodeChargeWord (chargeWord : Nat) (e : EventData) : EventData :=
  { e with
    energyShort := chargeWord &&& 0x7FFF
    energy := (chargeWord >>> 16) &&& 0xFFFF
    flags := if (chargeWord >>> 15) &&& 0x1 = 1 then e.flags ||| kFlagPileup
             else e.flags }

/-- `Dig1Decoder::DecodeEventDirect`: time-tag word (31-bit trigger time
tag and odd-channel bit), allocation of the event with
`waveformSize = numSamplesWave * 8`, then in order the optional waveform
block, the optional extras word, and the optional charge word.  The fine
time contribution `(extrasWord & 0x3FF) / 1024 * timeStep` is added to the
timestamp whenever `extrasEnabled`, without consulting `extraOption`.  The
`uint64` product `combined * timeStep` wraps modulo `2 ^ 64`. -/
def decodeEventDirect (ws : List Nat) (wi0 : Nat) (info : DualChannelInfo)
    (timeStep moduleNumber : Nat) : EventData × Nat :=
  let timeTagWord := Gen1.wordAt32 ws wi0
  let wi := wi0 + 1
  let triggerTimeTag := timeTagWord &&& 0x7FFFFFFF
  let isOddChannel := (timeTagWord >>> 31) &&& 0x1 == 1
  let waveformSize := info.numSamplesWave * 8
  let e := EventData.init waveformSize
  let e := { e with
    channel := if isOddChannel then 1 else 0
    module := moduleNumber
    timeResolution := timeStep % 256
    digitalProbe1Type := info.digitalProbe1
    digitalProbe2Type := info.digitalProbe2
    analogProbe1Type := info.analogProbe
    analogProbe2Type := if info.dualTraceEnabled then info.analogProbe else 0 }
  let r := if info.samplesEnabled ∧ 0 < waveformSize then decodeWaveform ws wi info e
           else (e, wi)
  let e := r.1
  let wi := r.2
  let r2 :=
    if info.extrasEnabled then
      let extrasWord := Gen1.wordAt32 ws wi
      let p := decodeExtrasWord extrasWord e
      let combinedTimeTag := triggerTimeTag + (p.1 <<< 31)
      let finalTimestamp : Nat := (combinedTimeTag * timeStep) % 2 ^ 64
      let fineTimeStamp := extrasWord &&& 0x3FF
      ({ p.2 with timeStampNs :=
          (finalTimestamp : ℚ) + (fineTimeStamp : ℚ) / 1024 * (timeStep : ℚ) },
        wi + 1)
    else
      ({ e with timeStampNs := (triggerTimeTag : ℚ) * (timeStep : ℚ) }, wi)
  let e := r2.1
  let wi := r2.2
  if info.chargeEnabled then (decodeChargeWord (Gen1.wordAt32 ws wi) e, wi + 1)
  else (e, wi)

end Dig1

namespace PHA1

/-- `PHA1DualChannelInfo` (`PHA1Structures.hpp`). -/
structure DualChannelInfo where
  aggregateSize : Nat
  numSamplesWave : Nat
  digitalProbe : Nat
  analogProbe2 : Nat
  analogProbe1 : Nat
  extraOption : Nat
  samplesEnabled : Bool
  extras2Enabled : Bool
  timeEnabled : Bool
  energyEnabled : Bool
  dualTraceEnabled : Bool
deriving DecidableEq, Repr

/-- `PHA1Decoder::DecodeWaveform`: as `Dig1Decoder::DecodeWaveform` (same
per-word extraction and dual-trace handling via the shared loop body, with
the PHA1 trigger flag landing in the `digitalProbe2` slot), but guarded by
`MemoryReader::GetRemainingWords`: when fewer than `numSamplesWave * 2`
words remain it logs and returns without reading anything. -/
def decodeWaveform (ws : List Nat) (wi : Nat) (info : DualChannelInfo)
    (e : EventData) : EventData × Nat :=
  let numWords := info.numSamplesWave * 2
  let remaining := if wi < ws.length then ws.length - wi else 0
  if remaining < numWords then (e, wi)
  else (Gen1.waveLoop info.dualTraceEnabled ws wi 0 numWords e, wi + numWords)

/-- The waveform-relevant slice of `PHA1Decoder::DecodeEventDirect`: the
event is allocated with `waveformSize = numSamplesWave *
kSamplesPerGroup` (= `numSamplesWave * 8`) and
`DecodeEventDataComponents` runs `DecodeWaveform` iff `samplesEnabled` and
the waveform size is positive.  Timestamp/extras/energy decoding follows
and does not touch the traces. -/
def allocateAndDecodeWaveform (ws : List Nat) (wi : Nat)
    (info : DualChannelInfo) : EventData × Nat :=
  let waveformSize := info.numSamplesWave * 8
  let e := EventData.init waveformSize
  if info.samplesEnabled ∧ 0 < waveformSize then decodeWaveform ws wi info e
  else (e, wi)

end PHA1

/-! Concrete buffers and channel configurations used to settle the claims
on explicit inputs.  Gen-2 buffers are given in post-swap (host) word
order, as consumed by the classifier and decoder. -/

/-- Scenario A aggregate header: type 2 at bits[60:63], fail 0, counter 1
at bits[32:47], total size 3. -/
def scenarioAHeader : Nat := (0x2 <<< 60) ||| (1 <<< 32) ||| 3

/-- Scenario A event first word: channel 5 at bits[56:62], raw timestamp
1000 at bits[0:47]. -/
def scenarioAFirst : Nat := (5 <<< 56) ||| 1000

/-- Scenario A event second word: last-word bit 63, energy short 100 at
bits[26:41], fine time 512 at bits[16:25], energy 4200 at bits[0:15], all
flag bits clear, waveform-present clear. -/
def scenarioASecond : Nat := (1 <<< 63) ||| (100 <<< 26) ||| (512 <<< 16) ||| 4200

/-- The Scenario A buffer of claim C2. -/
def scenarioABuffer : List Nat := [scenarioAHeader, scenarioAFirst, scenarioASecond]

/-- A 4-word buffer whose word 1 has top byte 0xF2: the low nibble
bits[56:59] is 2 (as the source checks) but the full byte bits[56:63] is
0xF2 (failing the byte pattern the spec states). -/
def mixedNibbleStartBuffer : List Nat :=
  [0x30 <<< 56, 0xF2 <<< 56, 0x01 <<< 56, 0x01 <<< 56]

/-- A clean gen-2 Start buffer: top bytes 0x30, 0x02, 0x01, 0x01. -/
def cleanStartBuffer : List Nat :=
  [0x30 <<< 56, 0x02 <<< 56, 0x01 <<< 56, 0x01 <<< 56]

/-- A clean gen-2 Stop buffer: top bytes 0x32, 0x00, 0x01. -/
def cleanStopBuffer : List Nat := [0x32 <<< 56, 0x00, 0x01 <<< 56]

/-- Waveform event second word: as Scenario A but with the
waveform-present bit 62 set. -/
def waveformSecondWord : Nat :=
  (1 <<< 63) ||| (1 <<< 62) ||| (100 <<< 26) ||| (512 <<< 16) ||| 4200

/-- Buffer for claim C4: header declaring 6 words, one event pair with
waveform, a valid waveform header word (bit 63 set, bits[60:62] zero), the
length word declaring `n_words = 1`, and a single data word whose low 12
bits happen to be 2. -/
def waveformPeekBuffer : List Nat :=
  [(0x2 <<< 60) ||| 6, scenarioAFirst, waveformSecondWord, 1 <<< 63, 1, 2]

/-- Buffer for claim C6: actual length 3 words, header declares
`total_size = 5`. -/
def overDeclaredBuffer : List Nat :=
  [(0x2 <<< 60) ||| 5, scenarioAFirst, scenarioASecond]

/-- Second buffer for claim C7: same shape as Scenario A but with raw
timestamp 1, so its single event has timestamp 3 ns at time step 2. -/
def lateThenEarlyBuffer : List Nat :=
  [scenarioAHeader, (5 <<< 56) ||| 1, scenarioASecond]

/-- PSD1 channel-pair configuration for claim C5: extras enabled with
extras option 0b000, no waveform, no charge. -/
def extrasOptionZeroInfo : Dig1.DualChannelInfo :=
  { aggregateSize := 4, numSamplesWave := 0, digitalProbe1 := 0
    digitalProbe2 := 0, analogProbe := 0, extraOption := 0
    samplesEnabled := false, extrasEnabled := true, timeEnabled := true
    chargeEnabled := false, dualTraceEnabled := false }

/-- Event words for claim C5: trigger time tag 100, then an extras word
whose low 10 bits are 512 and whose flag and extended-time fields are 0. -/
def extrasOptionZeroWords : List Nat := [100, 512]

/-- PSD1 channel-pair configuration for claim C8: dual trace enabled,
`numSamplesWave = 2` so the event is allocated with 16 trace slots. -/
def dualTraceInfo : Dig1.DualChannelInfo :=
  { aggregateSize := 8, numSamplesWave := 2, digitalProbe1 := 0
    digitalProbe2 := 0, analogProbe := 0, extraOption := 2
    samplesEnabled := true, extrasEnabled := false, timeEnabled := true
    chargeEnabled := false, dualTraceEnabled := true }

/-- Event words for claim C8: time-tag word 0, then four waveform words
packing the eight 16-bit samples with analog values 1, 2, 3, 4, 5, 6, 7, 8
(sample `k` has analog value `k + 1`; even `k` are analog-probe-1 samples,
odd `k` carry the analog-probe-2 values in dual-trace mode). -/
def dualTraceEventWords : List Nat :=
  [0, (2 <<< 16) ||| 1, (4 <<< 16) ||| 3, (6 <<< 16) ||| 5, (8 <<< 16) ||| 7]

/-- PSD1 channel-pair configuration with `numSamplesWave = 1` (waveform
enabled, dual trace off) used to witness claim C10. -/
def singleGroupInfo : Dig1.DualChannelInfo :=
  { aggregateSize := 4, numSamplesWave := 1, digitalProbe1 := 0
    digitalProbe2 := 0, analogProbe := 0, extraOption := 2
    samplesEnabled := true, extrasEnabled := false, timeEnabled := true
    chargeEnabled := false, dualTraceEnabled := false }

/-- PHA1 channel-pair configuration with `numSamplesWave = 1` used to
witness claim C10. -/
def pha1SingleGroupInfo : PHA1.DualChannelInfo :=
  { aggregateSize := 4, numSamplesWave := 1, digitalProbe := 0
    analogProbe2 := 0, analogProbe1 := 0, extraOption := 2
    samplesEnabled := true, extras2Enabled := false, timeEnabled := true
    energyEnabled := false, dualTraceEnabled := false }

/-- The waveform-relevant state of an event: its declared waveform size
together with the six trace vectors. -/
def waveState (e : EventData) :
    Nat × List Int × List Int × List Nat × List Nat × List Nat × List Nat :=
  (e.waveformSize, e.analogProbe1, e.analogProbe2, e.digitalProbe1,
    e.digitalProbe2, e.digitalProbe3, e.digitalProbe4)

/-! Helper lemmas about the embedded definitions. -/

theorem getD_set_ne {α : Type} (a d : α) (l : List α) {i j : Nat}
    (hij : i ≠ j) : (l.set i a).getD j d = l.getD j d := by
  have h1 : (l.set i a).getD j d = ((l.set i a).get? j).getD d := rfl
  have h2 : l.getD j d = (l.get? j).getD d := rfl
  have h3 : (l.set i a).get? j = l.get? j := by
    have hg : ∀ (xs : List α) (k : Nat), xs.get? k = xs[k]? := fun xs k =>
      List.get?_eq_getElem? xs k
    rw [hg, hg, List.getElem?_set_ne hij]
  rw [h1, h2, h3]

theorem and_0xFF_lt (n : Nat) : n &&& 0xFF < 2 ^ 8 := by
  have h : (0xFF : Nat) = 2 ^ 8 - 1 := by norm_num
  rw [h, Nat.and_pow_two_sub_one_eq_mod]
  exact Nat.mod_lt _ (by norm_num)

theorem and_0x7FF_lt (n : Nat) : n &&& 0x7FF < 2 ^ 11 := by
  have h : (0x7FF : Nat) = 2 ^ 11 - 1 := by norm_num
  rw [h, Nat.and_pow_two_sub_one_eq_mod]
  exact Nat.mod_lt _ (by norm_num)

namespace PSD2

theorem decodeEventPair_wordIndex_lt (ws : List Nat) (wi timeStep m : Nat) :
    wi < (decodeEventPair ws wi timeStep m).2.1 := by
  unfold decodeEventPair decodeWaveformData
  dsimp only
  split <;> dsimp only <;> omega

theorem processLoopAux_fuel_invariant (ws : List Nat) (T t m : Nat) :
    ∀ f g wi, T - wi ≤ f → T - wi ≤ g →
      processLoopAux ws T t m f wi = processLoopAux ws T t m g wi := by
  intro f
  induction f with
  | zero =>
    intro g wi hf _
    cases g with
    | zero => rfl
    | succ g =>
      simp only [processLoopAux]
      rw [if_neg]
      omega
  | succ f ih =>
    intro g wi hf hg
    cases g with
    | zero =>
      simp only [processLoopAux]
      rw [if_neg]
      omega
    | succ g =>
      simp only [processLoopAux]
      by_cases h : wi < T
      · rw [if_pos h, if_pos h]
        have hlt := decodeEventPair_wordIndex_lt ws wi t m
        rw [ih g (decodeEventPair ws wi t m).2.1 (by omega) (by omega)]
      · rw [if_neg h, if_neg h]

theorem processLoopAux_totalSize_le (ws : List Nat) (T t m : Nat) :
    ∀ f wi, T - wi ≤ f → T ≤ (processLoopAux ws T t m f wi).2 := by
  intro f
  induction f with
  | zero =>
    intro wi hf
    simp only [processLoopAux]
    omega
  | succ f ih =>
    intro wi hf
    simp only [processLoopAux]
    by_cases h : wi < T
    · rw [if_pos h]
      have hlt := decodeEventPair_wordIndex_lt ws wi t m
      exact ih (decodeEventPair ws wi t m).2.1 (by omega)
    · rw [if_neg h]
      omega

theorem processLoop_totalSize_le (ws : List Nat) (T t m wi : Nat) :
    T ≤ (processLoop ws T t m wi).2 :=
  processLoopAux_totalSize_le ws T t m (T - wi) wi (Nat.le_refl _)

theorem mem_insertEvent {a x : EventData} {l : List EventData}
    (h : x ∈ insertEvent a l) : x = a ∨ x ∈ l := by
  induction l with
  | nil =>
    simp only [insertEvent, List.mem_singleton] at h
    exact Or.inl h
  | cons b l ih =>
    simp only [insertEvent] at h
    by_cases hc : a.timeStampNs ≤ b.timeStampNs
    · rw [if_pos hc] at h
      exact List.mem_cons.mp h
    · rw [if_neg hc] at h
      rcases List.mem_cons.mp h with rfl | h
      · exact Or.inr (List.mem_cons_self _ _)
      · rcases ih h with rfl | h
        · exact Or.inl rfl
        · exact Or.inr (List.mem_cons_of_mem _ h)

theorem pairwise_insertEvent (a : EventData) (l : List EventData)
    (h : l.Pairwise fun x y => x.timeStampNs ≤ y.timeStampNs) :
    (insertEvent a l).Pairwise fun x y => x.timeStampNs ≤ y.timeStampNs := by
  induction l with
  | nil => simp [insertEvent]
  | cons b l ih =>
    rcases List.pairwise_cons.mp h with ⟨hb, hl⟩
    simp only [insertEvent]
    by_cases hc : a.timeStampNs ≤ b.timeStampNs
    · rw [if_pos hc]
      refine List.Pairwise.cons ?_ h
      intro x hx
      rcases List.mem_cons.mp hx with rfl | hx
      · exact hc
      · exact le_trans hc (hb x hx)
    · rw [if_neg hc]
      refine List.Pairwise.cons ?_ (ih hl)
      intro x hx
      rcases mem_insertEvent hx with rfl | hx
      · exact le_of_not_le hc
      · exact hb x hx

theorem sortEvents_pairwise (l : List EventData) :
    (sortEvents l).Pairwise fun x y => x.timeStampNs ≤ y.timeStampNs := by
  induction l with
  | nil => simp [sortEvents]
  | cons a l ih => exact pairwise_insertEvent a (sortEvents l) ih

theorem decodeData_pairwise (ws : List Nat) (t m : Nat) :
    (decodeData ws t m).Pairwise fun x y => x.timeStampNs ≤ y.timeStampNs := by
  unfold decodeData
  dsimp only
  split
  · exact sortEvents_pairwise _
  · exact List.Pairwise.nil

theorem singleWorkerRun_eq_join (bufs : List (List Nat)) (t m : Nat) :
    singleWorkerRun bufs t m = (bufs.map fun b => decodeData b t m).flatten := by
  have key : ∀ (bs : List (List Nat)) (acc : List EventData),
      bs.foldl (fun acc b => acc ++ decodeData b t m) acc
        = acc ++ (bs.map fun b => decodeData b t m).flatten := by
    intro bs
    induction bs with
    | nil => intro acc; simp
    | cons b bs ih =>
      intro acc
      simp only [List.foldl_cons, List.map_cons, List.flatten_cons]
      rw [ih, List.append_assoc]
  simpa using key bufs []

theorem combineFlags_split (h l : Nat) (hh : h < 2 ^ 8) (hl : l < 2 ^ 11) :
    combineFlags h l = 2 ^ 11 * h + l ∧
    (combineFlags h l >>> 11) &&& 0xFF = h ∧
    combineFlags h l &&& 0x7FF = l := by
  have he : combineFlags h l = 2 ^ 11 * h + l := by
    unfold combineFlags
    rw [Nat.shiftLeft_eq, Nat.mul_comm]
    exact (Nat.mul_add_lt_is_or hl h).symm
  refine ⟨he, ?_, ?_⟩
  · rw [he, Nat.shiftRight_eq_div_pow]
    have hd : (2 ^ 11 * h + l) / 2 ^ 11 = h := by
      rw [Nat.mul_add_div (by norm_num), Nat.div_eq_of_lt hl, Nat.add_zero]
    rw [hd]
    have h8 : (0xFF : Nat) = 2 ^ 8 - 1 := by norm_num
    rw [h8, Nat.and_pow_two_sub_one_eq_mod, Nat.mod_eq_of_lt hh]
  · rw [he]
    have h11 : (0x7FF : Nat) = 2 ^ 11 - 1 := by norm_num
    rw [h11, Nat.and_pow_two_sub_one_eq_mod, Nat.mul_add_mod,
      Nat.mod_eq_of_lt hl]

end PSD2

/-! Claim theorems. -/

/-- Claim C1 (code bug): for a buffer the gen-2 classifier tags as Unknown
— here a 2-word (16-byte) buffer of zeros, below the 3-word classifier
minimum — `AddData` enqueues nothing but, instead of merely returning the
Unknown tag as the claim requires, runs the `exit(1)` branch and
terminates the process, whatever the running state was. -/
theorem psd2_addData_unknown_exits_process :
    PSD2.addData true [0, 0]
        = { dataType := DataType.unknown, enqueued := false, running := true,
            exited := true } ∧
    PSD2.addData false [0, 0]
        = { dataType := DataType.unknown, enqueued := false, running := false,
            exited := true } := by
  decide

/-- Claim C2: the Scenario A gen-2 buffer (aggregate header with type 2,
counter 1, total size 3; event words with channel 5, raw timestamp 1000,
energy 4200, fine time 512, energy short 100, no flags, no waveform)
submitted to a running engine classifies as Event, and decoding at time
step 2 ns yields exactly one event with channel 5, energy 4200, energy
short 100, timestamp 2001 ns, empty waveform, zero flags, time resolution
2 and the configured module number. -/
theorem psd2_scenarioA_single_event (m : Nat) (_hm : m < 256) :
    (PSD2.addData true scenarioABuffer).dataType = DataType.event ∧
    (PSD2.addData true scenarioABuffer).enqueued = true ∧
    PSD2.decodeData scenarioABuffer 2 m =
      [{ EventData.init 0 with
          timeStampNs := 2001
          energy := 4200
          energyShort := 100
          module := m
          channel := 5
          timeResolution := 2 }] := by
  refine ⟨rfl, rfl, ?_⟩
  have h : PSD2.decodeData scenarioABuffer 2 m =
      [{ EventData.init 0 with
          timeStampNs := ((1000 : ℕ) : ℚ) * ((2 : ℕ) : ℚ)
            + ((512 : ℕ) : ℚ) / (1024 : ℚ) * ((2 : ℕ) : ℚ)
          energy := 4200
          energyShort := 100
          module := m
          channel := 5
          timeResolution := 2 }] := rfl
  rw [h]
  norm_num

theorem psd2_scenarioA_single_event_witness :
    (PSD2.addData true scenarioABuffer).dataType = DataType.event ∧
    (PSD2.addData true scenarioABuffer).enqueued = true ∧
    PSD2.decodeData scenarioABuffer 2 7 =
      [{ EventData.init 0 with
          timeStampNs := 2001
          energy := 4200
          energyShort := 100
          module := 7
          channel := 5
          timeResolution := 2 }] :=
  psd2_scenarioA_single_event 7 (by decide)

/-- Claim C3, counterexample: a 4-word buffer whose word 1 has top byte
0xF2 — its nibble bits[56:59] is 2 but its full byte bits[56:63] is not —
is classified Start by the source classifier, although the byte-level
pattern stated by the claim does not hold, so the claimed
"Start iff word1 bits[56:63] = 2 …" equivalence is false. -/
theorem psd2_classifier_byte_pattern_counterexample :
    PSD2.checkDataType mixedNibbleStartBuffer = DataType.start ∧
    PSD2.specStartPattern mixedNibbleStartBuffer = false := by
  decide

/-- Claim C3, amended: the gen-2 classifier checks only the low nibble
bits[56:59] of the top byte of words 1, 2, 3 (and for word 0 the two
nibbles bits[60:63] and bits[56:59]): a 4-word buffer is Start iff word0
bits[60:63] = 3, word0 bits[56:59] = 0, and words 1, 2, 3 have
bits[56:59] equal to 2, 1, 1; a 3-word buffer is Stop iff word0
bits[60:63] = 3, word0 bits[56:59] = 2, and words 1, 2 have bits[56:59]
equal to 0, 1; every other buffer of at least 3 whole words is Event. -/
theorem psd2_classifier_nibble_patterns (ws : List Nat) :
    (ws.length = 4 →
      (PSD2.checkDataType ws = DataType.start ↔
        ((PSD2.wordAt ws 0 >>> 60) &&& 0xF = 0x3
          ∧ (PSD2.wordAt ws 0 >>> 56) &&& 0xF = 0x0
          ∧ (PSD2.wordAt ws 1 >>> 56) &&& 0xF = 0x2
          ∧ (PSD2.wordAt ws 2 >>> 56) &&& 0xF = 0x1
          ∧ (PSD2.wordAt ws 3 >>> 56) &&& 0xF = 0x1))) ∧
    (ws.length = 3 →
      (PSD2.checkDataType ws = DataType.stop ↔
        ((PSD2.wordAt ws 0 >>> 60) &&& 0xF = 0x3
          ∧ (PSD2.wordAt ws 0 >>> 56) &&& 0xF = 0x2
          ∧ (PSD2.wordAt ws 1 >>> 56) &&& 0xF = 0x0
          ∧ (PSD2.wordAt ws 2 >>> 56) &&& 0xF = 0x1))) ∧
    (3 ≤ ws.length → PSD2.checkDataType ws ≠ DataType.unknown) ∧
    (3 ≤ ws.length → PSD2.checkDataType ws ≠ DataType.start →
      PSD2.checkDataType ws ≠ DataType.stop →
      PSD2.checkDataType ws = DataType.event) := by
  refine ⟨?_, ?_, ?_, ?_⟩
  · intro h4
    simp only [PSD2.checkDataType, h4]
    norm_num
    by_cases hs : PSD2.checkStart ws
    · simp only [hs, if_true]
      simp only [PSD2.checkStart, Bool.and_eq_true, beq_iff_eq] at hs
      simp only [hs]
      tauto
    · simp only [hs, if_false]
      simp only [PSD2.checkStart, Bool.and_eq_true, beq_iff_eq] at hs
      constructor
      · intro h
        exact absurd h (by simp)
      · intro h
        exact absurd (by tauto) hs
  · intro h3
    simp only [PSD2.checkDataType, h3]
    norm_num
    by_cases hs : PSD2.checkStop ws
    · simp only [hs, if_true]
      simp only [PSD2.checkStop, Bool.and_eq_true, beq_iff_eq] at hs
      simp only [hs]
      tauto
    · simp only [hs, if_false]
      simp only [PSD2.checkStop, Bool.and_eq_true, beq_iff_eq] at hs
      constructor
      · intro h
        exact absurd h (by simp)
      · intro h
        exact absurd (by tauto) hs
  · intro h3
    simp only [PSD2.checkDataType]
    split
    · omega
    · split
      · split <;> simp
      · split
        · split <;> simp
        · simp
  · intro h3 hstart hstop
    by_cases h33 : ws.length = 3
    · by_cases hs : PSD2.checkStop ws
      · exfalso
        apply hstop
        unfold PSD2.checkDataType
        rw [if_neg (by omega), if_pos h33, if_pos hs]
      · unfold PSD2.checkDataType
        rw [if_neg (by omega), if_pos h33, if_neg (by simpa using hs)]
    · by_cases h44 : ws.length = 4
      · by_cases hs : PSD2.checkStart ws
        · exfalso
          apply hstart
          unfold PSD2.checkDataType
          rw [if_neg (by omega), if_neg h33, if_pos h44, if_pos hs]
        · unfold PSD2.checkDataType
          rw [if_neg (by omega), if_neg h33, if_pos h44,
            if_neg (by simpa using hs)]
      · unfold PSD2.checkDataType
        rw [if_neg (by omega), if_neg h33, if_neg h44]

theorem psd2_classifier_nibble_patterns_witness :
    PSD2.checkDataType cleanStartBuffer = DataType.start ∧
    PSD2.checkDataType cleanStopBuffer = DataType.stop :=
  ⟨((psd2_classifier_nibble_patterns cleanStartBuffer).1 rfl).mpr (by decide),
    ((psd2_classifier_nibble_patterns cleanStopBuffer).2.1 rfl).mpr (by decide)⟩

/-- Claim C4 (code bug): on a waveform event whose length word declares
`n_words = 1` while the first data word has low bits 2, the size peek in
`DecodeEventPair` — which reads two and three words past the second event
word instead of one and two — takes the waveform size from the first
*data* word, allocating `waveformSize = 4` and traces of length 4, even
though the length word immediately following the waveform header declares
`n_words = 1`, i.e. a true waveform size of 2; the decoder's own
consistency check fires (mismatch flag true). -/
theorem psd2_waveform_size_peek_off_by_one :
    (PSD2.decodeEventPair waveformPeekBuffer 1 2 7).1.waveformSize = 4 ∧
    (PSD2.decodeEventPair waveformPeekBuffer 1 2 7).1.analogProbe1.length = 4 ∧
    (PSD2.decodeEventPair waveformPeekBuffer 1 2 7).2.2 = true ∧
    PSD2.wordAt waveformPeekBuffer 4 &&& 0xFFF = 1 ∧
    (PSD2.wordAt waveformPeekBuffer 4 &&& 0xFFF) * 2 = 2 := by
  refine ⟨rfl, rfl, ?_, rfl, rfl⟩
  decide

/-- Claim C5 (code bug): a PSD1 event decoded with extras enabled and
extras option 0b000 (extended-time-only per the spec, the sibling PHA1
decoder and the repository's own timestamp test) still gets the fine-time
contribution: with trigger time tag 100, extras word 512 (so bits[0:9]
= 512, extended time 0) and time step 2, the source computes
`100 * 2 + 512 / 1024 * 2 = 201` ns instead of the claimed exact
`(100 + (0 << 31)) * 2 = 200` ns. -/
theorem dig1_fine_time_added_regardless_of_extras_option :
    extrasOptionZeroInfo.extraOption = 0 ∧
    extrasOptionZeroInfo.extrasEnabled = true ∧
    (Dig1.decodeEventDirect extrasOptionZeroWords 0 extrasOptionZeroInfo
        2 7).1.timeStampNs = 201 ∧
    (201 : ℚ) ≠ ((100 : ℚ) + (0 : ℚ) * 2 ^ 31) * 2 := by
  refine ⟨rfl, rfl, ?_, by norm_num⟩
  have h : (Dig1.decodeEventDirect extrasOptionZeroWords 0 extrasOptionZeroInfo
        2 7).1.timeStampNs
      = ((200 : ℕ) : ℚ) + ((512 : ℕ) : ℚ) / (1024 : ℚ) * ((2 : ℕ) : ℚ) := rfl
  rw [h]
  norm_num

/-- Claim C6, counterexample: a 3-word buffer whose header declares
`total_size = 5` passes validation with the size-mismatch warning, and the
event scan runs to word index 5 — the declared size — not to
`min(declared, actual words) = 3` as the claim states. -/
theorem psd2_overdeclared_scan_counterexample :
    PSD2.validateDataHeader (PSD2.wordAt overDeclaredBuffer 0)
        (8 * overDeclaredBuffer.length)
      = { ok := true, sizeMismatchWarned := true } ∧
    PSD2.wordAt overDeclaredBuffer 0 &&& 0xFFFFFFFF = 5 ∧
    overDeclaredBuffer.length = 3 ∧
    (PSD2.processLoop overDeclaredBuffer 5 2 7 1).2 = 5 ∧
    ¬((PSD2.processLoop overDeclaredBuffer 5 2 7 1).2 ≤ min 5 3) := by
  refine ⟨rfl, rfl, rfl, ?_, ?_⟩ <;> decide

/-- Claim C6, amended: a gen-2 Event buffer whose declared `total_size`
disagrees with its actual byte length logs the size-mismatch warning, is
not discarded (validation still succeeds and decoding proceeds), and the
event scan covers word indices up to the *declared* total size — it is not
clamped to the actual buffer length. -/
theorem psd2_overdeclared_scans_to_declared (ws : List Nat) (t m : Nat)
    (htype : (PSD2.wordAt ws 0 >>> 60) &&& 0xF = 0x2)
    (hmis : (PSD2.wordAt ws 0 &&& 0xFFFFFFFF) * 8 ≠ 8 * ws.length) :
    PSD2.validateDataHeader (PSD2.wordAt ws 0) (8 * ws.length)
      = { ok := true, sizeMismatchWarned := true } ∧
    PSD2.decodeData ws t m
      = PSD2.sortEvents
          (PSD2.processLoop ws (PSD2.wordAt ws 0 &&& 0xFFFFFFFF) t m 1).1 ∧
    PSD2.wordAt ws 0 &&& 0xFFFFFFFF
      ≤ (PSD2.processLoop ws (PSD2.wordAt ws 0 &&& 0xFFFFFFFF) t m 1).2 := by
  have hv : PSD2.validateDataHeader (PSD2.wordAt ws 0) (8 * ws.length)
      = { ok := true, sizeMismatchWarned := true } := by
    unfold PSD2.validateDataHeader
    rw [if_neg (not_not_intro htype)]
    have hb : ((PSD2.wordAt ws 0 &&& 0xFFFFFFFF) * 8 != 8 * ws.length) = true :=
      bne_iff_ne.mpr hmis
    rw [hb]
  refine ⟨hv, ?_, PSD2.processLoop_totalSize_le ws _ t m 1⟩
  unfold PSD2.decodeData
  dsimp only
  rw [hv, if_pos rfl]

theorem psd2_overdeclared_scans_to_declared_witness :
    PSD2.validateDataHeader (PSD2.wordAt overDeclaredBuffer 0)
        (8 * overDeclaredBuffer.length)
      = { ok := true, sizeMismatchWarned := true } ∧
    PSD2.decodeData overDeclaredBuffer 2 7
      = PSD2.sortEvents
          (PSD2.processLoop overDeclaredBuffer
            (PSD2.wordAt overDeclaredBuffer 0 &&& 0xFFFFFFFF) 2 7 1).1 ∧
    PSD2.wordAt overDeclaredBuffer 0 &&& 0xFFFFFFFF
      ≤ (PSD2.processLoop overDeclaredBuffer
          (PSD2.wordAt overDeclaredBuffer 0 &&& 0xFFFFFFFF) 2 7 1).2 :=
  psd2_overdeclared_scans_to_declared overDeclaredBuffer 2 7 (by decide)
    (by decide)

/-- Claim C7, counterexample: a single-worker run over two Event buffers —
the first containing one event at 2001 ns, the second one event at 3 ns —
drains the batch `[2001 ns, 3 ns]`, whose timestamps are not monotonically
non-decreasing: sorting is applied per buffer only, and nothing reorders
events across buffers. -/
theorem psd2_single_worker_drain_not_sorted :
    (PSD2.singleWorkerRun [scenarioABuffer, lateThenEarlyBuffer] 2 7).map
        (fun e => e.timeStampNs) = [2001, 3] ∧
    ¬ (PSD2.singleWorkerRun [scenarioABuffer, lateThenEarlyBuffer] 2 7).Pairwise
        (fun x y => x.timeStampNs ≤ y.timeStampNs) := by
  have h : PSD2.singleWorkerRun [scenarioABuffer, lateThenEarlyBuffer] 2 7 =
      [{ EventData.init 0 with
          timeStampNs := ((1000 : ℕ) : ℚ) * ((2 : ℕ) : ℚ)
            + ((512 : ℕ) : ℚ) / (1024 : ℚ) * ((2 : ℕ) : ℚ)
          energy := 4200
          energyShort := 100
          module := 7
          channel := 5
          timeResolution := 2 },
        { EventData.init 0 with
          timeStampNs := ((1 : ℕ) : ℚ) * ((2 : ℕ) : ℚ)
            + ((512 : ℕ) : ℚ) / (1024 : ℚ) * ((2 : ℕ) : ℚ)
          energy := 4200
          energyShort := 100
          module := 7
          channel := 5
          timeResolution := 2 }] := rfl
  rw [h]
  constructor
  · simp only [List.map_cons, List.map_nil]
    norm_num
  · intro hp
    have h12 := (List.pairwise_cons.mp hp).1 _ (List.mem_cons_self _ _)
    simp only at h12
    norm_num at h12

/-- Claim C7, amended: the single-worker drain is the concatenation, in
buffer-processing (FIFO) order, of the per-buffer batches, and each of
those batches is sorted by ascending `timeStampNs`; timestamps are
monotonically non-decreasing within each buffer's contribution but not
across buffers. -/
theorem psd2_single_worker_per_buffer_sorted (bufs : List (List Nat))
    (t m : Nat) :
    PSD2.singleWorkerRun bufs t m
      = (bufs.map fun b => PSD2.decodeData b t m).flatten ∧
    ∀ b ∈ bufs, (PSD2.decodeData b t m).Pairwise
      fun x y => x.timeStampNs ≤ y.timeStampNs :=
  ⟨PSD2.singleWorkerRun_eq_join bufs t m,
    fun b _ => PSD2.decodeData_pairwise b t m⟩

theorem psd2_single_worker_per_buffer_sorted_witness :
    PSD2.singleWorkerRun [scenarioABuffer] 2 7
      = ([scenarioABuffer].map fun b => PSD2.decodeData b 2 7).flatten ∧
    (PSD2.decodeData scenarioABuffer 2 7).Pairwise
      (fun x y => x.timeStampNs ≤ y.timeStampNs) :=
  ⟨(psd2_single_worker_per_buffer_sorted [scenarioABuffer] 2 7).1,
    (psd2_single_worker_per_buffer_sorted [scenarioABuffer] 2 7).2
      scenarioABuffer (List.mem_singleton.mpr rfl)⟩

/-- Claim C8 (code bug): decoding a dual-trace PSD1 event with 16
allocated trace slots and raw analog samples 1…8, both probe arrays do
have length 16, but `analog_probe_2[2]` comes out as 1 — the even-sample
analog from two slots back, read from a slot the odd pass had already
overwritten — while the claim (and the source's own comments) require the
previous odd-sample analog value 2, found in the high half of waveform
word 1. -/
theorem dig1_dual_trace_even_slot_gets_stale_value :
    dualTraceInfo.dualTraceEnabled = true ∧
    (Dig1.decodeEventDirect dualTraceEventWords 0 dualTraceInfo
        2 7).1.analogProbe1.length = 16 ∧
    (Dig1.decodeEventDirect dualTraceEventWords 0 dualTraceInfo
        2 7).1.analogProbe2.length = 16 ∧
    (Dig1.decodeEventDirect dualTraceEventWords 0 dualTraceInfo
        2 7).1.analogProbe2.getD 2 0 = 1 ∧
    (Gen1.wordAt32 dualTraceEventWords 1 >>> 16) &&& 0x3FFF = 2 := by
  refine ⟨rfl, ?_, ?_, ?_, rfl⟩ <;> decide

/-- Claim C9: for every gen-2 second event word, the decoded `flags` field
is the code's combination `(flags_high << 11) | flags_low` of the 8-bit
field at bits[42:49] and the 11-bit field at bits[50:60]; extracting
`(flags >> 11) & 0xFF` and `flags & 0x7FF` recovers the two groups, and
re-combining the extracted pair of any 19-bit payload yields the payload
back. -/
theorem psd2_flags_pack_roundtrip :
    (∀ word rawTs t, ∀ e : EventData,
      (PSD2.decodeSecondWord word e rawTs t).flags
          = PSD2.combineFlags ((word >>> 42) &&& 0xFF) ((word >>> 50) &&& 0x7FF)
        ∧ ((PSD2.decodeSecondWord word e rawTs t).flags >>> 11) &&& 0xFF
          = (word >>> 42) &&& 0xFF
        ∧ (PSD2.decodeSecondWord word e rawTs t).flags &&& 0x7FF
          = (word >>> 50) &&& 0x7FF) ∧
    (∀ payload : Nat, payload < 2 ^ 19 →
      PSD2.combineFlags ((payload >>> 11) &&& 0xFF) (payload &&& 0x7FF)
        = payload) := by
  constructor
  · intro word rawTs t e
    have hflags : (PSD2.decodeSecondWord word e rawTs t).flags
        = PSD2.combineFlags ((word >>> 42) &&& 0xFF)
            ((word >>> 50) &&& 0x7FF) := rfl
    have hsplit := PSD2.combineFlags_split ((word >>> 42) &&& 0xFF)
      ((word >>> 50) &&& 0x7FF) (and_0xFF_lt _) (and_0x7FF_lt _)
    exact ⟨hflags, by rw [hflags]; exact hsplit.2.1,
      by rw [hflags]; exact hsplit.2.2⟩
  · intro p hp
    have h1 : p >>> 11 = p / 2 ^ 11 := Nat.shiftRight_eq_div_pow p 11
    have hdiv : p / 2 ^ 11 < 2 ^ 8 := by
      apply Nat.div_lt_of_lt_mul
      calc p < 2 ^ 19 := hp
        _ = 2 ^ 11 * 2 ^ 8 := by norm_num
    have h2 : (p >>> 11) &&& 0xFF = p / 2 ^ 11 := by
      rw [h1]
      have h8 : (0xFF : Nat) = 2 ^ 8 - 1 := by norm_num
      rw [h8, Nat.and_pow_two_sub_one_eq_mod, Nat.mod_eq_of_lt hdiv]
    have h3 : p &&& 0x7FF = p % 2 ^ 11 := by
      have h11 : (0x7FF : Nat) = 2 ^ 11 - 1 := by norm_num
      rw [h11, Nat.and_pow_two_sub_one_eq_mod]
    rw [h2, h3,
      (PSD2.combineFlags_split (p / 2 ^ 11) (p % 2 ^ 11) hdiv
        (Nat.mod_lt _ (by norm_num))).1,
      Nat.div_add_mod]

theorem psd2_flags_pack_roundtrip_witness :
    PSD2.combineFlags ((0x7ABCD >>> 11) &&& 0xFF) (0x7ABCD &&& 0x7FF)
        = 0x7ABCD ∧
    (PSD2.decodeSecondWord scenarioASecond (EventData.init 0) 1000 2).flags
        &&& 0x7FF
      = (scenarioASecond >>> 50) &&& 0x7FF :=
  ⟨psd2_flags_pack_roundtrip.2 0x7ABCD (by norm_num),
    (psd2_flags_pack_roundtrip.1 scenarioASecond 1000 2
      (EventData.init 0)).2.2⟩

theorem getD_replicate_self {α : Type} (z : α) :
    ∀ n i, (List.replicate n z).getD i z = z := by
  intro n
  induction n with
  | zero => intro i; rfl
  | succ n ih =>
    intro i
    cases i with
    | zero => rfl
    | succ i => exact ih i

namespace Gen1

theorem waveStep_waveformSize (dt : Bool) (w j : Nat) (e : EventData) :
    (waveStep dt w j e).waveformSize = e.waveformSize := by
  unfold waveStep
  dsimp only
  split_ifs <;> rfl

theorem waveStep_lengths (dt : Bool) (w j : Nat) (e : EventData) :
    (waveStep dt w j e).analogProbe1.length = e.analogProbe1.length
    ∧ (waveStep dt w j e).analogProbe2.length = e.analogProbe2.length
    ∧ (waveStep dt w j e).digitalProbe1.length = e.digitalProbe1.length
    ∧ (waveStep dt w j e).digitalProbe2.length = e.digitalProbe2.length
    ∧ (waveStep dt w j e).digitalProbe3.length = e.digitalProbe3.length
    ∧ (waveStep dt w j e).digitalProbe4.length = e.digitalProbe4.length := by
  unfold waveStep
  dsimp only
  split_ifs <;> simp [List.length_set]

theorem waveStep_getD_of_ge (dt : Bool) (w j : Nat) (e : EventData) (i : Nat)
    (hi : j * 2 + 2 ≤ i) :
    (waveStep dt w j e).analogProbe1.getD i 0 = e.analogProbe1.getD i 0
    ∧ (waveStep dt w j e).analogProbe2.getD i 0 = e.analogProbe2.getD i 0
    ∧ (waveStep dt w j e).digitalProbe1.getD i 0 = e.digitalProbe1.getD i 0
    ∧ (waveStep dt w j e).digitalProbe2.getD i 0 = e.digitalProbe2.getD i 0
    ∧ (waveStep dt w j e).digitalProbe3.getD i 0 = e.digitalProbe3.getD i 0
    ∧ (waveStep dt w j e).digitalProbe4.getD i 0 = e.digitalProbe4.getD i 0 := by
  have h1 : j * 2 ≠ i := by omega
  have h2 : j * 2 + 1 ≠ i := by omega
  unfold waveStep
  dsimp only
  split_ifs <;>
    refine ⟨?_, ?_, ?_, ?_, ?_, ?_⟩ <;>
    simp only [getD_set_ne _ _ _ h1, getD_set_ne _ _ _ h2]

theorem waveLoop_waveformSize (dt : Bool) (ws : List Nat) (wi : Nat) :
    ∀ count j e, (waveLoop dt ws wi j count e).waveformSize = e.waveformSize := by
  intro count
  induction count with
  | zero => intro j e; rfl
  | succ n ih =>
    intro j e
    simp only [waveLoop]
    rw [ih, waveStep_waveformSize]

theorem waveLoop_lengths (dt : Bool) (ws : List Nat) (wi : Nat) :
    ∀ count j e,
      (waveLoop dt ws wi j count e).analogProbe1.length = e.analogProbe1.length
      ∧ (waveLoop dt ws wi j count e).analogProbe2.length = e.analogProbe2.length
      ∧ (waveLoop dt ws wi j count e).digitalProbe1.length = e.digitalProbe1.length
      ∧ (waveLoop dt ws wi j count e).digitalProbe2.length = e.digitalProbe2.length
      ∧ (waveLoop dt ws wi j count e).digitalProbe3.length = e.digitalProbe3.length
      ∧ (waveLoop dt ws wi j count e).digitalProbe4.length
          = e.digitalProbe4.length := by
  intro count
  induction count with
  | zero => intro j e; exact ⟨rfl, rfl, rfl, rfl, rfl, rfl⟩
  | succ n ih =>
    intro j e
    simp only [waveLoop]
    obtain ⟨l1, l2, l3, l4, l5, l6⟩ := ih (j + 1) (waveStep dt (wordAt32 ws (wi + j)) j e)
    obtain ⟨s1, s2, s3, s4, s5, s6⟩ := waveStep_lengths dt (wordAt32 ws (wi + j)) j e
    exact ⟨l1.trans s1, l2.trans s2, l3.trans s3, l4.trans s4, l5.trans s5,
      l6.trans s6⟩

theorem waveLoop_getD_of_ge (dt : Bool) (ws : List Nat) (wi : Nat) :
    ∀ count j e i, (j + count) * 2 ≤ i →
      (waveLoop dt ws wi j count e).analogProbe1.getD i 0 = e.analogProbe1.getD i 0
      ∧ (waveLoop dt ws wi j count e).analogProbe2.getD i 0 = e.analogProbe2.getD i 0
      ∧ (waveLoop dt ws wi j count e).digitalProbe1.getD i 0 = e.digitalProbe1.getD i 0
      ∧ (waveLoop dt ws wi j count e).digitalProbe2.getD i 0 = e.digitalProbe2.getD i 0
      ∧ (waveLoop dt ws wi j count e).digitalProbe3.getD i 0 = e.digitalProbe3.getD i 0
      ∧ (waveLoop dt ws wi j count e).digitalProbe4.getD i 0
          = e.digitalProbe4.getD i 0 := by
  intro count
  induction count with
  | zero => intro j e i _; exact ⟨rfl, rfl, rfl, rfl, rfl, rfl⟩
  | succ n ih =>
    intro j e i hi
    simp only [waveLoop]
    obtain ⟨l1, l2, l3, l4, l5, l6⟩ :=
      ih (j + 1) (waveStep dt (wordAt32 ws (wi + j)) j e) i (by omega)
    obtain ⟨s1, s2, s3, s4, s5, s6⟩ :=
      waveStep_getD_of_ge dt (wordAt32 ws (wi + j)) j e i (by omega)
    exact ⟨l1.trans s1, l2.trans s2, l3.trans s3, l4.trans s4, l5.trans s5,
      l6.trans s6⟩

end Gen1

/-- The scalar decorations that follow the waveform stage of
`Dig1Decoder::DecodeEventDirect` (extras word, charge word, timestamp
assignment) never touch the waveform size or the trace vectors, so the
wave state of the decoded event is the wave state left by the waveform
loop run over the freshly allocated event. -/
theorem dig1_decodeEventDirect_waveState (ws : List Nat) (wi t m : Nat)
    (info : Dig1.DualChannelInfo)
    (hcond : info.samplesEnabled = true ∧ 0 < info.numSamplesWave * 8) :
    waveState (Dig1.decodeEventDirect ws wi info t m).1
      = waveState (Gen1.waveLoop info.dualTraceEnabled ws (wi + 1) 0
          (info.numSamplesWave * 2)
          { EventData.init (info.numSamplesWave * 8) with
            channel := if (Gen1.wordAt32 ws wi >>> 31) &&& 0x1 == 1 then 1 else 0
            module := m
            timeResolution := t % 256
            digitalProbe1Type := info.digitalProbe1
            digitalProbe2Type := info.digitalProbe2
            analogProbe1Type := info.analogProbe
            analogProbe2Type :=
              if info.dualTraceEnabled then info.analogProbe else 0 }) := by
  unfold Dig1.decodeEventDirect Dig1.decodeWaveform
  dsimp only
  rw [if_pos hcond]
  split_ifs <;> rfl

/-- The waveform stage of `PHA1Decoder::DecodeWaveform` with sufficient
data runs the shared loop over the freshly allocated event. -/
theorem pha1_allocateAndDecodeWaveform_eq (pws : List Nat) (pwi : Nat)
    (pinfo : PHA1.DualChannelInfo)
    (hcond : pinfo.samplesEnabled = true ∧ 0 < pinfo.numSamplesWave * 8)
    (hplen : pwi < pws.length)
    (hpdata : pinfo.numSamplesWave * 2 ≤ pws.length - pwi) :
    PHA1.allocateAndDecodeWaveform pws pwi pinfo
      = (Gen1.waveLoop pinfo.dualTraceEnabled pws pwi 0
          (pinfo.numSamplesWave * 2)
          (EventData.init (pinfo.numSamplesWave * 8)),
        pwi + pinfo.numSamplesWave * 2) := by
  unfold PHA1.allocateAndDecodeWaveform PHA1.decodeWaveform
  dsimp only
  rw [if_pos hcond, if_pos hplen, if_neg (by omega)]

/-- Claim C10: a gen-1 event with samples enabled and `numSamplesWave = s >
0` allocates all six trace vectors with length `8 * s`; the waveform
decode then consumes exactly `2 * s` words (hence writes at most the first
`4 * s` sample slots), and every slot from index `4 * s` on keeps its
zero-initialised value — in both the PSD1 (`Dig1Decoder`) and the PHA1
(`PHA1Decoder`) decoder (the latter given enough remaining words for its
insufficient-data guard). -/
theorem gen1_waveform_allocates_8s_fills_only_4s
    (ws pws : List Nat) (wi pwi t m : Nat)
    (info : Dig1.DualChannelInfo) (pinfo : PHA1.DualChannelInfo)
    (hsamp : info.samplesEnabled = true) (hs : 0 < info.numSamplesWave)
    (hpsamp : pinfo.samplesEnabled = true) (hps : 0 < pinfo.numSamplesWave)
    (hplen : pwi < pws.length)
    (hpdata : pinfo.numSamplesWave * 2 ≤ pws.length - pwi) :
    ((Dig1.decodeEventDirect ws wi info t m).1.waveformSize
        = info.numSamplesWave * 8
      ∧ (Dig1.decodeEventDirect ws wi info t m).1.analogProbe1.length
        = info.numSamplesWave * 8
      ∧ (Dig1.decodeEventDirect ws wi info t m).1.analogProbe2.length
        = info.numSamplesWave * 8
      ∧ (Dig1.decodeEventDirect ws wi info t m).1.digitalProbe1.length
        = info.numSamplesWave * 8
      ∧ (Dig1.decodeEventDirect ws wi info t m).1.digitalProbe2.length
        = info.numSamplesWave * 8
      ∧ (Dig1.decodeEventDirect ws wi info t m).1.digitalProbe3.length
        = info.numSamplesWave * 8
      ∧ (Dig1.decodeEventDirect ws wi info t m).1.digitalProbe4.length
        = info.numSamplesWave * 8) ∧
    (Dig1.decodeWaveform ws (wi + 1) info
        (EventData.init (info.numSamplesWave * 8))).2
      = (wi + 1) + info.numSamplesWave * 2 ∧
    (∀ i, info.numSamplesWave * 4 ≤ i →
      (Dig1.decodeEventDirect ws wi info t m).1.analogProbe1.getD i 0 = 0
      ∧ (Dig1.decodeEventDirect ws wi info t m).1.analogProbe2.getD i 0 = 0
      ∧ (Dig1.decodeEventDirect ws wi info t m).1.digitalProbe1.getD i 0 = 0
      ∧ (Dig1.decodeEventDirect ws wi info t m).1.digitalProbe2.getD i 0 = 0
      ∧ (Dig1.decodeEventDirect ws wi info t m).1.digitalProbe3.getD i 0 = 0
      ∧ (Dig1.decodeEventDirect ws wi info t m).1.digitalProbe4.getD i 0 = 0) ∧
    ((PHA1.allocateAndDecodeWaveform pws pwi pinfo).1.waveformSize
        = pinfo.numSamplesWave * 8
      ∧ (PHA1.allocateAndDecodeWaveform pws pwi pinfo).1.analogProbe1.length
        = pinfo.numSamplesWave * 8
      ∧ (PHA1.allocateAndDecodeWaveform pws pwi pinfo).1.digitalProbe1.length
        = pinfo.numSamplesWave * 8
      ∧ (PHA1.allocateAndDecodeWaveform pws pwi pinfo).2
        = pwi + pinfo.numSamplesWave * 2) ∧
    (∀ i, pinfo.numSamplesWave * 4 ≤ i →
      (PHA1.allocateAndDecodeWaveform pws pwi pinfo).1.analogProbe1.getD i 0 = 0
      ∧ (PHA1.allocateAndDecodeWaveform pws pwi pinfo).1.analogProbe2.getD i 0
        = 0
      ∧ (PHA1.allocateAndDecodeWaveform pws pwi pinfo).1.digitalProbe1.getD i 0
        = 0
      ∧ (PHA1.allocateAndDecodeWaveform pws pwi pinfo).1.digitalProbe2.getD i 0
        = 0) := by
  have hw := dig1_decodeEventDirect_waveState ws wi t m info ⟨hsamp, by omega⟩
  simp only [waveState, Prod.mk.injEq] at hw
  obtain ⟨h0, h1, h2, h3, h4, h5, h6⟩ := hw
  have hp := pha1_allocateAndDecodeWaveform_eq pws pwi pinfo
    ⟨hpsamp, by omega⟩ hplen hpdata
  refine ⟨⟨?_, ?_, ?_, ?_, ?_, ?_, ?_⟩, rfl, ?_, ?_, ?_⟩
  · rw [h0, Gen1.waveLoop_waveformSize]
    rfl
  · obtain ⟨L1, L2, L3, L4, L5, L6⟩ :=
      Gen1.waveLoop_lengths info.dualTraceEnabled ws (wi + 1)
        (info.numSamplesWave * 2) 0 _
    rw [h1, L1]
    exact List.length_replicate _ _
  · obtain ⟨L1, L2, L3, L4, L5, L6⟩ :=
      Gen1.waveLoop_lengths info.dualTraceEnabled ws (wi + 1)
        (info.numSamplesWave * 2) 0 _
    rw [h2, L2]
    exact List.length_replicate _ _
  · obtain ⟨L1, L2, L3, L4, L5, L6⟩ :=
      Gen1.waveLoop_lengths info.dualTraceEnabled ws (wi + 1)
        (info.numSamplesWave * 2) 0 _
    rw [h3, L3]
    exact List.length_replicate _ _
  · obtain ⟨L1, L2, L3, L4, L5, L6⟩ :=
      Gen1.waveLoop_lengths info.dualTraceEnabled ws (wi + 1)
        (info.numSamplesWave * 2) 0 _
    rw [h4, L4]
    exact List.length_replicate _ _
  · obtain ⟨L1, L2, L3, L4, L5, L6⟩ :=
      Gen1.waveLoop_lengths info.dualTraceEnabled ws (wi + 1)
        (info.numSamplesWave * 2) 0 _
    rw [h5, L5]
    exact List.length_replicate _ _
  · obtain ⟨L1, L2, L3, L4, L5, L6⟩ :=
      Gen1.waveLoop_lengths info.dualTraceEnabled ws (wi + 1)
        (info.numSamplesWave * 2) 0 _
    rw [h6, L6]
    exact List.length_replicate _ _
  · intro i hi
    obtain ⟨G1, G2, G3, G4, G5, G6⟩ :=
      Gen1.waveLoop_getD_of_ge info.dualTraceEnabled ws (wi + 1)
        (info.numSamplesWave * 2) 0 _ i (by omega)
    exact ⟨by rw [h1, G1]; exact getD_replicate_self _ _ _,
      by rw [h2, G2]; exact getD_replicate_self _ _ _,
      by rw [h3, G3]; exact getD_replicate_self _ _ _,
      by rw [h4, G4]; exact getD_replicate_self _ _ _,
      by rw [h5, G5]; exact getD_replicate_self _ _ _,
      by rw [h6, G6]; exact getD_replicate_self _ _ _⟩
  · obtain ⟨L1, L2, L3, L4, L5, L6⟩ :=
      Gen1.waveLoop_lengths pinfo.dualTraceEnabled pws pwi
        (pinfo.numSamplesWave * 2) 0 (EventData.init (pinfo.numSamplesWave * 8))
    refine ⟨?_, ?_, ?_, ?_⟩
    · rw [hp]
      dsimp only
      rw [Gen1.waveLoop_waveformSize]
      rfl
    · rw [hp]
      dsimp only
      rw [L1]
      exact List.length_replicate _ _
    · rw [hp]
      dsimp only
      rw [L3]
      exact List.length_replicate _ _
    · rw [hp]
  · intro i hi
    obtain ⟨G1, G2, G3, G4, G5, G6⟩ :=
      Gen1.waveLoop_getD_of_ge pinfo.dualTraceEnabled pws pwi
        (pinfo.numSamplesWave * 2) 0 (EventData.init (pinfo.numSamplesWave * 8))
        i (by omega)
    refine ⟨?_, ?_, ?_, ?_⟩ <;> rw [hp] <;> dsimp only
    · rw [G1]; exact getD_replicate_self _ _ _
    · rw [G2]; exact getD_replicate_self _ _ _
    · rw [G3]; exact getD_replicate_self _ _ _
    · rw [G4]; exact getD_replicate_self _ _ _

theorem gen1_waveform_allocates_8s_fills_only_4s_witness :
    (Dig1.decodeEventDirect [0, (2 <<< 16) ||| 1, (4 <<< 16) ||| 3] 0
        singleGroupInfo 2 7).1.waveformSize = 8 ∧
    (Dig1.decodeEventDirect [0, (2 <<< 16) ||| 1, (4 <<< 16) ||| 3] 0
        singleGroupInfo 2 7).1.analogProbe1.getD 5 0 = 0 ∧
    (PHA1.allocateAndDecodeWaveform [(2 <<< 16) ||| 1, (4 <<< 16) ||| 3] 0
        pha1SingleGroupInfo).2 = 2 := by
  have h := gen1_waveform_allocates_8s_fills_only_4s
    [0, (2 <<< 16) ||| 1, (4 <<< 16) ||| 3] [(2 <<< 16) ||| 1, (4 <<< 16) ||| 3]
    0 0 2 7 singleGroupInfo pha1SingleGroupInfo rfl (by decide) rfl (by decide)
    (by decide) (by decide)
  exact ⟨h.1.1, (h.2.2.1 5 (by decide)).1, h.2.2.2.1.2.2.2⟩

end DELILA
